import Mathlib

/-!
Shallow embedding of `src/main.py`, a Yahoo!-news harvesting pipeline:
search harvest (`get_yahoo_news_with_selenium`), body pagination
(`fetch_article_pages`), comment pagination (`fetch_comments_with_selenium`),
AI enrichment (`analyze_article_with_ai`) and the Excel merge in `main`.

External collaborators (browser rendering, HTML selector extraction, the AI
service, the JSON parser, the spreadsheet I/O) are modelled at their interface
boundary as function parameters; everything the Python file itself computes
(string cleaning, date parsing/formatting, loop control, deduplication,
merging, column ordering) is embedded as executable Lean definitions.
-/

/-! ### Date handling (`format_datetime_str`, lines 47-48 and 81-86) -/

/-- A parsed `datetime` restricted to the fields the script uses. -/
structure DateTimeYMDHM where
  year : Nat
  month : Nat
  day : Nat
  hour : Nat
  minute : Nat
deriving DecidableEq

/-- Numeric value of a decimal digit character. -/
def digitVal (c : Char) : Nat := c.toNat - 48

/-- Left-pad a number to two digits, as `strftime` `%m`/`%d`/`%H`/`%M` do. -/
def pad2 (n : Nat) : String := if n < 10 then "0" ++ toString n else toString n

/-- Left-pad a number to four digits, as `strftime` `%Y` does. -/
def pad4 (n : Nat) : String :=
  if n < 10 then "000" ++ toString n
  else if n < 100 then "00" ++ toString n
  else if n < 1000 then "0" ++ toString n
  else toString n

/-- Gregorian leap-year rule used by `datetime`. -/
def isLeap (y : Nat) : Bool := (y % 4 == 0 && y % 100 != 0) || y % 400 == 0

/-- Number of days in a month, as validated by the `datetime` constructor. -/
def daysInMonth (y m : Nat) : Nat :=
  if m = 2 then (if isLeap y then 29 else 28)
  else if m = 4 ∨ m = 6 ∨ m = 9 ∨ m = 11 then 30
  else 31

/-- `strptime` `%Y`: exactly four decimal digits. -/
def parseYear4 : List Char → Option (Nat × List Char)
  | a :: b :: c :: d :: rest =>
    if a.isDigit && b.isDigit && c.isDigit && d.isDigit then
      some (digitVal a * 1000 + digitVal b * 100 + digitVal c * 10 + digitVal d, rest)
    else none
  | _ => none

/-- `strptime` `%m`: the ordered regex alternation `1[0-2] | 0[1-9] | [1-9]`. -/
def parseMonth : List Char → Option (Nat × List Char)
  | '1' :: c :: rest =>
    if '0' ≤ c ∧ c ≤ '2' then some (10 + digitVal c, rest)
    else some (1, c :: rest)
  | '0' :: c :: rest =>
    if '1' ≤ c ∧ c ≤ '9' then some (digitVal c, rest) else none
  | c :: rest =>
    if '1' ≤ c ∧ c ≤ '9' then some (digitVal c, rest) else none
  | [] => none

/-- `strptime` `%d`: the ordered regex alternation `3[01] | [12]\d | 0[1-9] | [1-9]`. -/
def parseDay : List Char → Option (Nat × List Char)
  | '3' :: c :: rest =>
    if c = '0' ∨ c = '1' then some (30 + digitVal c, rest)
    else some (3, c :: rest)
  | c1 :: c2 :: rest =>
    if (c1 = '1' ∨ c1 = '2') ∧ c2.isDigit then some (digitVal c1 * 10 + digitVal c2, rest)
    else if c1 = '0' then (if '1' ≤ c2 ∧ c2 ≤ '9' then some (digitVal c2, rest) else none)
    else if '1' ≤ c1 ∧ c1 ≤ '9' then some (digitVal c1, c2 :: rest)
    else none
  | [c] => if '1' ≤ c ∧ c ≤ '9' then some (digitVal c, []) else none
  | [] => none

/-- `strptime` `%H`: the ordered regex alternation `2[0-3] | [01]\d | \d`. -/
def parseHour : List Char → Option (Nat × List Char)
  | '2' :: c :: rest =>
    if '0' ≤ c ∧ c ≤ '3' then some (20 + digitVal c, rest)
    else some (2, c :: rest)
  | c1 :: c2 :: rest =>
    if (c1 = '0' ∨ c1 = '1') ∧ c2.isDigit then some (digitVal c1 * 10 + digitVal c2, rest)
    else if c1.isDigit then some (digitVal c1, c2 :: rest)
    else none
  | [c] => if c.isDigit then some (digitVal c, []) else none
  | [] => none

/-- `strptime` `%M`: the ordered regex alternation `[0-5]\d | \d`. -/
def parseMinute : List Char → Option (Nat × List Char)
  | c1 :: c2 :: rest =>
    if ('0' ≤ c1 ∧ c1 ≤ '5') ∧ c2.isDigit then some (digitVal c1 * 10 + digitVal c2, rest)
    else if c1.isDigit then some (digitVal c1, c2 :: rest)
    else none
  | [c] => if c.isDigit then some (digitVal c, []) else none
  | [] => none

/-- A literal character of the format string. -/
def parseLit (c : Char) : List Char → Option (List Char)
  | d :: rest => if d = c then some rest else none
  | [] => none

/-- Whitespace in a `strptime` format matches one or more whitespace characters. -/
def parseSpaces1 : List Char → Option (List Char)
  | c :: rest => if c.isWhitespace then some (rest.dropWhile Char.isWhitespace) else none
  | [] => none

/-- `datetime.strptime(s, "%Y/%m/%d %H:%M")`: parse the whole string, then apply
the `datetime` constructor's range validation (year ≥ 1, day fits the month). -/
def strptime_ymd_hm (s : String) : Option DateTimeYMDHM := do
  let (y, r1) ← parseYear4 s.data
  let r2 ← parseLit '/' r1
  let (m, r3) ← parseMonth r2
  let r4 ← parseLit '/' r3
  let (d, r5) ← parseDay r4
  let r6 ← parseSpaces1 r5
  let (h, r7) ← parseHour r6
  let r8 ← parseLit ':' r7
  let (mi, r9) ← parseMinute r8
  if r9 = [] ∧ 1 ≤ y ∧ d ≤ daysInMonth y m then
    pure ⟨y, m, d, h, mi⟩
  else none

/-- `format_datetime_str` (line 47-48): `dt.strftime("%Y/%m/%d %H:%M")`. -/
def format_datetime_str (dt : DateTimeYMDHM) : String :=
  pad4 dt.year ++ "/" ++ pad2 dt.month ++ "/" ++ pad2 dt.day ++ " " ++
    pad2 dt.hour ++ ":" ++ pad2 dt.minute

/-- The weekday characters of `re.sub(r'\([月火水木金土日]\)', '', date_str)`. -/
def weekdayChars : List Char := ['月', '火', '水', '木', '金', '土', '日']

/-- One left-to-right pass of `re.sub(r'\([月火水木金土日]\)', '', ·)`:
each non-overlapping occurrence of a parenthesised weekday is removed. -/
def stripWeekdayParens : List Char → List Char
  | '(' :: c :: ')' :: rest =>
    if weekdayChars.contains c then stripWeekdayParens rest
    else '(' :: stripWeekdayParens (c :: ')' :: rest)
  | c :: rest => c :: stripWeekdayParens rest
  | [] => []

/-- Lines 81-86 of `get_yahoo_news_with_selenium`: clean the weekday
parenthetical, try `strptime`, format on success, and on `ValueError`
keep the original string. -/
def normalizeDateStr (date_str : String) : String :=
  let cleaned := String.mk (stripWeekdayParens date_str.data)
  match strptime_ymd_hm cleaned with
  | some dt => format_datetime_str dt
  | none => date_str

/-! ### Search harvest (`get_yahoo_news_with_selenium`, lines 50-96) -/

/-- One `<li>` search-result entry as seen through the selector collaborator:
each of the four `find` calls may miss (`None`). -/
structure RawEntry where
  titleText : Option String
  linkHref : Option String
  timeText : Option String
  sourceText : Option String
deriving DecidableEq

/-- An article stub: the dict built on lines 89-91. -/
structure Stub where
  title : String
  url : String
  date : String
  src : String
deriving DecidableEq

/-- Lines 67-91: one loop iteration. Entries missing any of the four tags are
skipped (`continue`), text fields are stripped, the date is normalized, and a
stub is kept only when title and url are non-empty (Python truthiness). -/
def parseEntry (e : RawEntry) : Option Stub :=
  match e.titleText, e.linkHref, e.timeText, e.sourceText with
  | some t, some u, some d, some s =>
    let title := t.trim
    let url := u
    let date_str := d.trim
    let source := s.trim
    let formatted := normalizeDateStr date_str
    if title ≠ "" ∧ url ≠ "" then some ⟨title, url, formatted, source⟩ else none
  | _, _, _, _ => none

/-- `get_yahoo_news_with_selenium` (lines 50-96). The rendering/selector
collaborator either raises (`Except.error`, e.g. `driver.get` failing) or
yields the parsed listing entries. The Python function wraps the body in
`try/finally` with no `except` clause, so a collaborator exception
propagates to the caller after `driver.quit()`. -/
def get_yahoo_news_with_selenium (listing : Except String (List RawEntry)) :
    Except String (List Stub) :=
  match listing with
  | .error e => .error e
  | .ok entries => .ok (entries.filterMap parseEntry)

/-! ### Body pagination (`fetch_article_pages`, lines 98-121) -/

/-- Configured bound `MAX_BODY_PAGES` (line 26). -/
def MAX_BODY_PAGES : Nat := 10

/-- Configured bound `MAX_COMMENT_PAGES` (line 27). -/
def MAX_COMMENT_PAGES : Nat := 10

/-- Configured bound `MAX_TOTAL_COMMENTS` (line 28). -/
def MAX_TOTAL_COMMENTS : Nat := 500

/-- What fetching one body page can yield through the HTTP + selector
collaborators: a `requests` exception (or non-2xx status raised by
`raise_for_status`), a page whose `article_body` region is absent, or the
extracted text (the `\n`-join of all `<p>` texts in the region). -/
inductive FetchResult where
  | fail
  | noBody
  | body (text : String)
deriving DecidableEq

/-- The `for page in range(1, MAX_BODY_PAGES + 1)` loop of
`fetch_article_pages`, with `fuel` remaining iterations and `acc` the pages
collected so far in reverse. Mirrors lines 100-120: a request error stops;
a missing body region stops when `page > 1` and is skipped (`continue`) on
page 1; empty text or text equal to the previous page stops; otherwise the
text is appended. -/
def fetchPagesGo (fetch : Nat → FetchResult) : Nat → Nat → List String → List String
  | 0, _, acc => acc.reverse
  | fuel + 1, page, acc =>
    match fetch page with
    | .fail => acc.reverse
    | .noBody =>
      if 1 < page then acc.reverse else fetchPagesGo fetch fuel (page + 1) acc
    | .body t =>
      if t = "" ∨ acc.head? = some t then acc.reverse
      else fetchPagesGo fetch fuel (page + 1) (t :: acc)

/-- `fetch_article_pages` (lines 98-121), parameterized by the page bound. -/
def fetch_article_pages (fetch : Nat → FetchResult) (maxPages : Nat) : List String :=
  fetchPagesGo fetch maxPages 1 []

/-! ### Comment pagination (`fetch_comments_with_selenium`, lines 123-186) -/

/-- Whether `needle` is a leading segment of `hay` (`str.startswith`). -/
def startsWithChars : List Char → List Char → Bool
  | [], _ => true
  | _ :: _, [] => false
  | a :: as, b :: bs => a == b && startsWithChars as bs

/-- Python's substring test `needle in hay` on character lists. -/
def hasSubChars (needle : List Char) : List Char → Bool
  | [] => startsWithChars needle []
  | hay@(_ :: rest) => startsWithChars needle hay || hasSubChars needle rest

/-- `list(dict.fromkeys(·))` (line 171): drop later duplicates, keeping the
first occurrence of each string in order; `seen` accumulates what was kept. -/
def dedupKeepFirst (seen : List String) : List String → List String
  | [] => []
  | a :: as =>
    if seen.contains a then dedupKeepFirst seen as
    else a :: dedupKeepFirst (a :: seen) as

/-- Lines 170-171: keep the non-empty candidate texts (Python truthiness
filter in the comprehension), then deduplicate within the page. -/
def pageNewComments (raw : List String) : List String :=
  dedupKeepFirst [] (raw.filter (fun s => s ≠ ""))

/-- The `for page in range(1, MAX_COMMENT_PAGES + 1)` loop of
`fetch_comments_with_selenium` (lines 142-180). `pc page` is the selector
collaborator's candidate texts for that page (`none` = `TimeoutException`
waiting for the comment list). The loop stops on timeout, on a page with no
(deduplicated, non-empty) comments, or after the page that makes the running
total reach `maxTotal`; each kept page is joined with `"\n---\n"`. -/
def fetchCommentsGo (pc : Nat → Option (List String)) (maxTotal : Nat) :
    Nat → Nat → List String → List String → Nat × List String
  | 0, _, total, pages => (total.length, pages.reverse)
  | fuel + 1, page, total, pages =>
    match pc page with
    | none => (total.length, pages.reverse)
    | some raw =>
      let cur := pageNewComments raw
      if cur = [] then (total.length, pages.reverse)
      else
        let total' := total ++ cur
        let pages' := String.intercalate "\n---\n" cur :: pages
        if maxTotal ≤ total'.length then (total'.length, pages'.reverse)
        else fetchCommentsGo pc maxTotal fuel (page + 1) total' pages'

/-- `fetch_comments_with_selenium` (lines 123-186), parameterized by the
page and total bounds. Returns `(0, [])` immediately when the URL does not
contain `"/articles/"` (lines 127-128), else runs the page loop and returns
`(len(total_comments), per_page_comments_text)`. -/
def fetch_comments_with_selenium (pc : Nat → Option (List String))
    (maxPages maxTotal : Nat) (base_url : String) : Nat × List String :=
  if hasSubChars "/articles/".data base_url.data then
    fetchCommentsGo pc maxTotal maxPages 1 [] []
  else (0, [])

/-- A mocked comment source page: 50 pairwise-distinct non-empty comments. -/
def mockComments : List String := (List.range 50).map (fun i => "comment" ++ toString i)

/-! ### AI enrichment (`analyze_article_with_ai`, lines 188-237) -/

/-- The four labels of the analysis dict (lines 189-192 and 229-234). -/
structure Analysis where
  title_sentiment : String
  title_category : String
  body_sentiment : String
  body_category : String
deriving DecidableEq

/-- `default_response` (lines 189-192): all four fields `"N/A"`. -/
def default_response : Analysis :=
  { title_sentiment := "N/A", title_category := "N/A",
    body_sentiment := "N/A", body_category := "N/A" }

/-- `analysis_result.get(key, "N/A")` over the parsed JSON object. -/
def lookupD (kvs : List (String × String)) (k dflt : String) : String :=
  match kvs.find? (fun kv => kv.fst == k) with
  | some kv => kv.snd
  | none => dflt

/-- Line 197: `bool(body_text and isinstance(body_text, str) and
len(body_text.strip()) >= 10)`. -/
def analyzeBodyFlag (body_text : String) : Bool :=
  body_text != "" && Nat.ble 10 body_text.trim.length

/-- The f-string prompt template of lines 203-223. -/
def enrichPrompt (title promptBody optionalKeys : String) : String :=
  "\n    以下のニュース記事の「タイトル」と「本文」を分析し、結果を単一のJSON形式で返してください。\n\n    分析項目:\n    1. sentiment: 全体の論調が「ポジティブ」「ネガティブ」「ニュートラル」のいずれか。\n    2. category: 内容に最も合致するカテゴリを以下から1つ選択してください。\n       [\"新技術・研究開発\", \"経営・財務\", \"販売・マーケティング\", \"生産・品質\", \"人事・労務\", \"不祥事・訴訟\", \"その他\"]\n\n    分析対象:\n    ---\n    タイトル: " ++ title ++ "\n    ---\n    本文: " ++ promptBody ++ "\n    ---\n\n    JSONのキーは以下のように指定してください:\n    - \"title_sentiment\"\n    - \"title_category\"" ++ optionalKeys ++ "\n\n    JSON出力のみ記述してください:\n    "

/-- The prompt actually sent for a title/body pair: the body slot holds the
first 2000 characters of the body (`body_text[:2000]`) when the body is
analyzed, else the placeholder `（本文なし）`; the optional body keys are
requested only when the body is analyzed (lines 199-223). -/
def promptFor (title body_text : String) : String :=
  enrichPrompt title
    (if analyzeBodyFlag body_text then body_text.take 2000 else "（本文なし）")
    (if analyzeBodyFlag body_text then "\n- \"body_sentiment\"\n- \"body_category\"" else "")

/-- Line 226: strip the response and remove the code-fence markers. -/
def cleanResponse (t : String) : String :=
  (t.trim.replace "```json" "").replace "```" ""

/-- `analyze_article_with_ai` (lines 188-237). Collaborators: `svc` is the
generative-model call (its `Except.error` is any raised service exception)
and `jsonParse` is `json.loads` restricted to string-valued objects (`none`
= `JSONDecodeError` or any shape the later `.get` calls would throw on).
The second component counts service calls. The `except` on lines 235-237
turns a service error or parse failure into `default_response`. -/
def analyze_article_with_ai (aiEnabled : Bool)
    (svc : String → Except String String)
    (jsonParse : String → Option (List (String × String)))
    (title body_text : String) : Analysis × Nat :=
  if aiEnabled = false ∨ title = "" then (default_response, 0)
  else
    match svc (promptFor title body_text) with
    | .error _ => (default_response, 1)
    | .ok text =>
      match jsonParse (cleanResponse text) with
      | none => (default_response, 1)
      | some kvs =>
        ({ title_sentiment := lookupD kvs "title_sentiment" "N/A",
           title_category := lookupD kvs "title_category" "N/A",
           body_sentiment := lookupD kvs "body_sentiment" "N/A",
           body_category := lookupD kvs "body_category" "N/A" }, 1)

/-- Line 272: `first_page_body = body_pages[0] if body_pages else ""`. -/
def firstPageBody (body_pages : List String) : String := body_pages.headD ""

/-- Lines 271-273: the analysis `main` computes for an article from its
fetched body pages. -/
def articleAnalysis (aiEnabled : Bool) (svc : String → Except String String)
    (jsonParse : String → Option (List (String × String)))
    (title : String) (body_pages : List String) : Analysis × Nat :=
  analyze_article_with_ai aiEnabled svc jsonParse title (firstPageBody body_pages)

/-! ### Store merge (`main`, lines 239-316) -/

/-- A persisted row, abstracted to its identity key (the `URL` column) plus
the remaining cells, which the merge logic never inspects. -/
structure Row where
  url : String
  payload : String
deriving DecidableEq

/-- Lines 256-294: the rows built for harvested articles whose URL is not in
`existing_urls` (the already-known URLs are skipped by the `continue` on
lines 258-259); `build` stands for the per-article fetch/enrich/assemble
work of lines 261-293. -/
def newArticleRows (existing : List Row) (articles : List Stub) (build : Stub → Row) :
    List Row :=
  (articles.filter (fun a => !((existing.map Row.url).contains a.url))).map build

/-- Lines 296-316: when there are new rows, the persisted table is
`pd.concat([df_existing, df_new])` (row content is unchanged by the
column reordering); when there are none, the file is left untouched. -/
def mergedStore (existing : List Row) (articles : List Stub) (build : Stub → Row) :
    List Row :=
  let newRows := newArticleRows existing articles build
  if newRows = [] then existing else existing ++ newRows

/-! ### Final column ordering (`main`, lines 300-311) -/

/-- Python string `<`: lexicographic comparison by Unicode code point. -/
def pyLtChars : List Char → List Char → Bool
  | [], [] => false
  | [], _ :: _ => true
  | _ :: _, [] => false
  | a :: as, b :: bs =>
    if a.toNat < b.toNat then true
    else if b.toNat < a.toNat then false
    else pyLtChars as bs

/-- Python string `<` lifted to `String`. -/
def pyLt (a b : String) : Bool := pyLtChars a.data b.data

/-- Ordered insertion under `pyLt`. -/
def insertStr (a : String) : List String → List String
  | [] => [a]
  | b :: bs => if pyLt a b then a :: b :: bs else b :: insertStr a bs

/-- Python `sorted` on strings (insertion sort; the keys sorted by the
script are pairwise distinct, so stability is immaterial). -/
def pySorted : List String → List String
  | [] => []
  | a :: as => insertStr a (pySorted as)

/-- `static_columns` (lines 300-304). -/
def staticColumns : List String :=
  ["タイトル", "URL", "投稿日", "引用元", "コメント数",
   "タイトルからポジネガ判定", "タイトルからカテゴリ分け",
   "ニュース記事本文からポジネガ判定", "ニュース記事本文からカテゴリ分け"]

/-- The body-page column name `f'本文({idx+1}ページ目)'` (line 288). -/
def bodyCol (i : Nat) : String := "本文(" ++ toString i ++ "ページ目)"

/-- The comment-page column name `f'閲覧者コメント({idx+1}ページ目)'` (line 291). -/
def commentCol (i : Nat) : String := "閲覧者コメント(" ++ toString i ++ "ページ目)"

/-- The body columns present when pages `1..b` occur in the merged table. -/
def bodyColsUpTo (b : Nat) : List String := (List.range b).map (fun i => bodyCol (i + 1))

/-- The comment columns present when pages `1..c` occur in the merged table. -/
def commentColsUpTo (c : Nat) : List String :=
  (List.range c).map (fun i => commentCol (i + 1))

/-- `final_column_order` (lines 306-309) for a merged table holding body
pages `1..b` and comment pages `1..c`: the static columns, then
`sorted(body_columns)`, then `sorted(comment_columns)` — Python's `sorted`
on the column-name strings. -/
def finalColumnOrder (b c : Nat) : List String :=
  staticColumns ++ pySorted (bodyColsUpTo b) ++ pySorted (commentColsUpTo c)

/-! ### Helper lemmas -/

/-- A successful fetch whose text triggers neither stop-condition appends the
page and continues the loop. -/
theorem fetchPagesGo_body_cont (f : Nat → FetchResult) (fuel page : Nat)
    (acc : List String) (t : String) (hf : f page = .body t)
    (ht : ¬(t = "" ∨ acc.head? = some t)) :
    fetchPagesGo f (fuel + 1) page acc = fetchPagesGo f fuel (page + 1) (t :: acc) := by
  simp only [fetchPagesGo, hf]
  rw [if_neg ht]

/-- A successful fetch whose text is empty or repeats the previous page stops
the loop at the pages collected so far. -/
theorem fetchPagesGo_body_stop (f : Nat → FetchResult) (fuel page : Nat)
    (acc : List String) (t : String) (hf : f page = .body t)
    (ht : t = "" ∨ acc.head? = some t) :
    fetchPagesGo f (fuel + 1) page acc = acc.reverse := by
  simp only [fetchPagesGo, hf]
  rw [if_pos ht]

/-- The body-pagination loop yields at most `fuel` pages beyond those already
collected. -/
theorem fetchPagesGo_length (f : Nat → FetchResult) :
    ∀ fuel page acc, (fetchPagesGo f fuel page acc).length ≤ fuel + acc.length := by
  intro fuel
  induction fuel with
  | zero => intro page acc; simp [fetchPagesGo]
  | succ k ih =>
    intro page acc
    cases hg : f page with
    | fail => simp [fetchPagesGo, hg]
    | noBody =>
      by_cases hp : 1 < page
      · simp [fetchPagesGo, hg, hp]
      · simp only [fetchPagesGo, hg, if_neg hp]
        have := ih (page + 1) acc
        omega
    | body t =>
      by_cases ht : t = "" ∨ acc.head? = some t
      · simp [fetchPagesGo, hg, ht]
      · simp only [fetchPagesGo, hg, if_neg ht]
        have := ih (page + 1) (t :: acc)
        simp only [List.length_cons] at this
        omega

/-- A comment page with new comments that leaves the running total below the
cap is accumulated and the loop continues. -/
theorem fetchCommentsGo_cont (pc : Nat → Option (List String)) (mt fuel page : Nat)
    (total pages raw : List String) (h : pc page = some raw)
    (hne : pageNewComments raw ≠ [])
    (hlt : total.length + (pageNewComments raw).length < mt) :
    fetchCommentsGo pc mt (fuel + 1) page total pages =
      fetchCommentsGo pc mt fuel (page + 1) (total ++ pageNewComments raw)
        (String.intercalate "\n---\n" (pageNewComments raw) :: pages) := by
  simp only [fetchCommentsGo, h]
  rw [if_neg hne, if_neg (by rw [List.length_append]; omega)]

/-- A comment page with new comments that takes the running total to the cap
(or past it) is still accumulated whole, and then the loop stops. -/
theorem fetchCommentsGo_stop (pc : Nat → Option (List String)) (mt fuel page : Nat)
    (total pages raw : List String) (h : pc page = some raw)
    (hne : pageNewComments raw ≠ [])
    (hge : mt ≤ total.length + (pageNewComments raw).length) :
    fetchCommentsGo pc mt (fuel + 1) page total pages =
      (total.length + (pageNewComments raw).length,
        (String.intercalate "\n---\n" (pageNewComments raw) :: pages).reverse) := by
  simp only [fetchCommentsGo, h]
  rw [if_neg hne, if_pos (by rw [List.length_append]; omega), List.length_append]

/-! ### Claims -/

/-- C9: `normalizeDateStr` maps `"2024/9/29(月) 16:35"` to
`"2024/09/29 16:35"`, and every date string its `strptime` model fails to
parse (such as `"somewhere last week"`) is returned unchanged. -/
theorem date_normalization_spec (s : String)
    (h : strptime_ymd_hm (String.mk (stripWeekdayParens s.data)) = none) :
    normalizeDateStr "2024/9/29(月) 16:35" = "2024/09/29 16:35" ∧
    normalizeDateStr "somewhere last week" = "somewhere last week" ∧
    normalizeDateStr s = s := by
  refine ⟨by decide, by decide, ?_⟩
  simp only [normalizeDateStr, h]

/-- Witness for C9 at the unparsable input `"somewhere last week"`. -/
theorem date_normalization_witness :
    normalizeDateStr "2024/9/29(月) 16:35" = "2024/09/29 16:35" ∧
    normalizeDateStr "somewhere last week" = "somewhere last week" ∧
    normalizeDateStr "somewhere last week" = "somewhere last week" :=
  date_normalization_spec "somewhere last week" (by decide)

/-- C7: with the AI disabled or an empty title, `analyze_article_with_ai`
returns the `default_response` — all four labels in the `"N/A"`
(unavailable) state — and performs zero service calls. -/
theorem ai_disabled_unavailable (aiEnabled : Bool)
    (svc : String → Except String String)
    (jsonParse : String → Option (List (String × String)))
    (title body_text : String) (h : aiEnabled = false ∨ title = "") :
    analyze_article_with_ai aiEnabled svc jsonParse title body_text
      = (default_response, 0) ∧
    default_response.title_sentiment = "N/A" ∧
    default_response.title_category = "N/A" ∧
    default_response.body_sentiment = "N/A" ∧
    default_response.body_category = "N/A" := by
  refine ⟨?_, rfl, rfl, rfl, rfl⟩
  unfold analyze_article_with_ai
  rw [if_pos h]

/-- Witness for C7 with the AI disabled. -/
theorem ai_disabled_witness :
    analyze_article_with_ai false (fun _ => Except.ok "ignored") (fun _ => none)
        "タイトル" "本文" = (default_response, 0) ∧
    default_response.title_sentiment = "N/A" ∧
    default_response.title_category = "N/A" ∧
    default_response.body_sentiment = "N/A" ∧
    default_response.body_category = "N/A" :=
  ai_disabled_unavailable false (fun _ => Except.ok "ignored") (fun _ => none)
    "タイトル" "本文" (Or.inl rfl)

/-- C8 counterexample: on an unparsable service response the function
returns exactly `default_response` — the same value as the disabled
("unavailable") path — so there is no distinct "error" state. -/
theorem ai_parse_failure_counterexample :
    (analyze_article_with_ai true (fun _ => Except.ok "plain text") (fun _ => none)
        "タイトル" "").1 = default_response ∧
    (analyze_article_with_ai false (fun _ => Except.ok "plain text") (fun _ => none)
        "タイトル" "").1 = default_response :=
  ⟨rfl, rfl⟩

/-- C8 (amended): on a service error or a response that fails JSON parsing
after code-fence stripping, `analyze_article_with_ai` returns the same
`"N/A"` `default_response` used for the unavailable path (one service call
made, no exception escaping), and the pipeline continues. -/
theorem ai_parse_failure_amended (svc : String → Except String String)
    (jsonParse : String → Option (List (String × String)))
    (title body_text : String) (hT : ¬ title = "")
    (h : (∃ e, svc (promptFor title body_text) = .error e) ∨
         (∃ t, svc (promptFor title body_text) = .ok t ∧
            jsonParse (cleanResponse t) = none)) :
    analyze_article_with_ai true svc jsonParse title body_text
      = (default_response, 1) := by
  unfold analyze_article_with_ai
  rw [if_neg (by simp [hT])]
  rcases h with ⟨e, he⟩ | ⟨t, ht, hp⟩
  · rw [he]
  · rw [ht]
    simp only [hp]

/-- Witness for C8 (amended) at a concrete parse-failing response. -/
theorem ai_parse_failure_witness :
    analyze_article_with_ai true (fun _ => Except.ok "oops") (fun _ => none) "t" "b"
      = (default_response, 1) :=
  ai_parse_failure_amended (fun _ => Except.ok "oops") (fun _ => none) "t" "b"
    (by decide) (Or.inr ⟨"oops", rfl, rfl⟩)

/-- C10: the analysis `main` computes for an article depends on the body
pages only through the first page (line 272 passes `body_pages[0]`): two
runs that differ only in body pages 2 and onward yield identical Analysis
values and service-call counts. -/
theorem analysis_ignores_later_pages (aiEnabled : Bool)
    (svc : String → Except String String)
    (jsonParse : String → Option (List (String × String)))
    (title p : String) (rest rest' : List String) :
    articleAnalysis aiEnabled svc jsonParse title (p :: rest) =
      articleAnalysis aiEnabled svc jsonParse title (p :: rest') := rfl

/-- C6 counterexample: when the rendering collaborator raises (e.g.
`driver.get` fails), `get_yahoo_news_with_selenium` propagates the
exception — it does not return an empty list. -/
theorem search_failure_counterexample :
    get_yahoo_news_with_selenium (Except.error "connection refused")
      = Except.error "connection refused" ∧
    get_yahoo_news_with_selenium (Except.error "connection refused")
      ≠ Except.ok [] :=
  ⟨rfl, fun h => Except.noConfusion h⟩

/-- C6 (amended): when the listing renders but no entry parses, the harvest
returns an empty list (no exception) and `main` leaves the store untouched;
an exception from the rendering collaborator, however, propagates out of
the function (its `try/finally` has no `except` clause). -/
theorem search_failure_amended (entries : List RawEntry) (e : String)
    (S : List Row) (build : Stub → Row)
    (h : ∀ x ∈ entries, parseEntry x = none) :
    get_yahoo_news_with_selenium (Except.ok entries) = Except.ok [] ∧
    get_yahoo_news_with_selenium (Except.error e) = Except.error e ∧
    mergedStore S [] build = S := by
  refine ⟨?_, rfl, rfl⟩
  simp only [get_yahoo_news_with_selenium]
  rw [List.filterMap_eq_nil_iff.mpr h]

/-- Witness for C6 (amended): a listing whose only entry misses every tag. -/
theorem search_failure_witness :
    get_yahoo_news_with_selenium (Except.ok [⟨none, none, none, none⟩]) = Except.ok [] ∧
    get_yahoo_news_with_selenium (Except.error "boom") = Except.error "boom" ∧
    mergedStore [] [] (fun a => ⟨a.url, a.title⟩) = [] :=
  search_failure_amended [⟨none, none, none, none⟩] "boom" []
    (fun a => ⟨a.url, a.title⟩) (by decide)

/-- C5: with body pages 1..10 present (`MAX_BODY_PAGES = 10`), the merged
table's column order sorts the body columns lexicographically as strings,
placing `本文(10ページ目)` before `本文(1ページ目)` and `本文(2ページ目)` —
not in ascending page order as intended. -/
theorem column_order_lexicographic_bug :
    finalColumnOrder 10 0 =
      staticColumns ++ [bodyCol 10, bodyCol 1, bodyCol 2, bodyCol 3, bodyCol 4,
        bodyCol 5, bodyCol 6, bodyCol 7, bodyCol 8, bodyCol 9] ∧
    finalColumnOrder 10 0 ≠ staticColumns ++ bodyColsUpTo 10 :=
  ⟨by decide, by decide⟩

/-- C3 counterexample: a fetcher returning byte-identical extracted text for
pages 1 and 2 — the empty text — yields zero pages, not exactly one (the
empty-text stop-condition fires before the first page is appended). -/
theorem body_pagination_counterexample :
    (fetch_article_pages (fun _ => FetchResult.body "") 10).length ≠ 1 := by decide

/-- C3 (amended): `fetch_article_pages` always terminates with at most
`max_pages` pages, and when pages 1 and 2 return byte-identical *non-empty*
extracted text the returned sequence is exactly the one page. -/
theorem body_pagination_amended (f : Nat → FetchResult) (mp : Nat) (T : String)
    (hT : ¬ T = "") (h1 : f 1 = .body T) (h2 : f 2 = .body T) (hmp : 1 ≤ mp) :
    (∀ (g : Nat → FetchResult) (n : Nat), (fetch_article_pages g n).length ≤ n) ∧
    fetch_article_pages f mp = [T] := by
  constructor
  · intro g n
    have := fetchPagesGo_length g n 1 []
    simpa [fetch_article_pages] using this
  · obtain ⟨k, rfl⟩ : ∃ k, mp = k + 1 := ⟨mp - 1, by omega⟩
    rw [fetch_article_pages,
      fetchPagesGo_body_cont f k 1 [] T h1 (by simp [hT])]
    cases k with
    | zero => simp [fetchPagesGo]
    | succ j =>
      rw [fetchPagesGo_body_stop f j 2 [T] T h2 (Or.inr rfl)]
      simp

/-- Witness for C3 (amended): a fetcher returning `"A"` on every page, with
`max_pages = 2`. -/
theorem body_pagination_witness :
    (∀ (g : Nat → FetchResult) (n : Nat), (fetch_article_pages g n).length ≤ n) ∧
    fetch_article_pages (fun _ => FetchResult.body "A") 2 = ["A"] :=
  body_pagination_amended (fun _ => FetchResult.body "A") 2 "A" (by decide) rfl rfl
    (by omega)

/-- C4 counterexample: with no body region on page 1 but a body on page 2,
the paginator does not return the empty sequence — page 1 is skipped by the
`continue` and later pages are still collected. -/
theorem body_page1_counterexample :
    fetch_article_pages (fun p => if p = 1 then FetchResult.noBody else FetchResult.body "X") 10
      ≠ [] := by decide

/-- C4 (amended): a missing body region on page 1 does not end the run with
an empty sequence — the `continue` skips page 1 and scanning resumes at
page 2; a missing body region on any page greater than 1 stops pagination
at the pages collected so far; only when page 2 (after a bodyless page 1)
also lacks a body does the function return the empty sequence. -/
theorem body_page1_skip_amended (f : Nat → FetchResult) (mp : Nat)
    (h1 : f 1 = .noBody) :
    fetch_article_pages f (mp + 1) = fetchPagesGo f mp 2 [] ∧
    (∀ fuel page acc, 2 ≤ page → f page = .noBody →
      fetchPagesGo f (fuel + 1) page acc = acc.reverse) ∧
    (f 2 = .noBody → fetch_article_pages f (mp + 1) = []) := by
  have hskip : fetch_article_pages f (mp + 1) = fetchPagesGo f mp 2 [] := by
    rw [fetch_article_pages]
    simp only [fetchPagesGo, h1]
    rw [if_neg (by omega : ¬ (1 : Nat) < 1)]
  have hstop : ∀ fuel page acc, 2 ≤ page → f page = .noBody →
      fetchPagesGo f (fuel + 1) page acc = acc.reverse := by
    intro fuel page acc hp hf
    simp only [fetchPagesGo, hf]
    rw [if_pos (by omega : 1 < page)]
  refine ⟨hskip, hstop, fun h2 => ?_⟩
  rw [hskip]
  cases mp with
  | zero => simp [fetchPagesGo]
  | succ k => simpa using hstop k 2 [] (by omega) h2

/-- Witness for C4 (amended): no body region on any page gives the empty
sequence. -/
theorem body_page1_skip_witness :
    fetch_article_pages (fun _ => FetchResult.noBody) (9 + 1) = [] :=
  (body_page1_skip_amended (fun _ => FetchResult.noBody) 9 rfl).2.2 rfl

/-- C1 counterexample: two rows already sharing a URL in the prior store
survive the merge untouched — the URL occupies two rows of the persisted
store, so pre-existing duplicates are not collapsed. -/
theorem merge_duplicate_url_counterexample :
    ((mergedStore
        [⟨"https://news.yahoo.co.jp/articles/dup", "row1"⟩,
         ⟨"https://news.yahoo.co.jp/articles/dup", "row2"⟩] []
        (fun a => ⟨a.url, a.title⟩)).countP
      (fun r => r.url == "https://news.yahoo.co.jp/articles/dup")) = 2 := by decide

/-- C1 (amended): the persisted merged store contains exactly the URLs in
`urls(S) ∪ urls(N)`; provided the prior store and the harvested list each
contain no internal duplicate URLs, every URL occupies exactly one row.
A URL already in the prior store keeps its original row (the freshly
harvested occurrence is filtered out before the merge, so the prior — not
the most recent — occurrence survives), and the prior rows are carried
over unchanged as a prefix of the result. -/
theorem merge_unique_urls_amended (S : List Row) (H : List Stub) (build : Stub → Row)
    (hbuild : ∀ a, (build a).url = a.url)
    (hS : (S.map Row.url).Nodup) (hH : (H.map Stub.url).Nodup) :
    ((mergedStore S H build).map Row.url).Nodup ∧
    (∀ u, u ∈ (mergedStore S H build).map Row.url ↔
      u ∈ S.map Row.url ∨ u ∈ H.map Stub.url) ∧
    (mergedStore S H build).take S.length = S := by
  have hmerge : mergedStore S H build = S ++ newArticleRows S H build := by
    unfold mergedStore
    by_cases hc : newArticleRows S H build = []
    · rw [if_pos hc, hc, List.append_nil]
    · rw [if_neg hc]
  have hnew : (newArticleRows S H build).map Row.url
      = (H.filter (fun a => !((S.map Row.url).contains a.url))).map Stub.url := by
    unfold newArticleRows
    rw [List.map_map]
    exact List.map_congr_left (fun a _ => hbuild a)
  have hkey : ∀ a : Stub,
      a ∈ H.filter (fun a => !((S.map Row.url).contains a.url)) ↔
        a ∈ H ∧ a.url ∉ S.map Row.url := by
    intro a
    rw [List.mem_filter]
    constructor
    · rintro ⟨haH, hb⟩
      refine ⟨haH, fun hmem => ?_⟩
      rw [Bool.not_eq_true', ← Bool.not_eq_true] at hb
      exact hb (List.elem_iff.mpr hmem)
    · rintro ⟨haH, hmem⟩
      refine ⟨haH, ?_⟩
      rw [Bool.not_eq_true', ← Bool.not_eq_true]
      exact fun hc => hmem (List.elem_iff.mp hc)
  refine ⟨?_, ?_, ?_⟩
  · rw [hmerge, List.map_append, hnew, List.nodup_append]
    refine ⟨hS, hH.sublist (List.Sublist.map _ (List.filter_sublist H)), ?_⟩
    intro u hu hv
    rw [List.mem_map] at hv
    obtain ⟨a, haf, rfl⟩ := hv
    exact ((hkey a).1 haf).2 hu
  · intro u
    rw [hmerge, List.map_append, hnew, List.mem_append]
    constructor
    · rintro (h | h)
      · exact Or.inl h
      · rw [List.mem_map] at h
        obtain ⟨a, haf, rfl⟩ := h
        exact Or.inr (List.mem_map_of_mem _ ((hkey a).1 haf).1)
    · rintro (h | h)
      · exact Or.inl h
      · by_cases hu : u ∈ S.map Row.url
        · exact Or.inl hu
        · rw [List.mem_map] at h
          obtain ⟨a, haH, rfl⟩ := h
          exact Or.inr (List.mem_map_of_mem _ ((hkey a).2 ⟨haH, hu⟩))
  · rw [hmerge]
    exact List.take_left S _

/-- Witness for C1 (amended): a one-row store and one genuinely new stub. -/
theorem merge_unique_urls_witness :
    ((mergedStore [⟨"u1", "p1"⟩] [⟨"t2", "u2", "d2", "s2"⟩]
        (fun a => ⟨a.url, a.title⟩)).map Row.url).Nodup ∧
    ("u2" ∈ (mergedStore [⟨"u1", "p1"⟩] [⟨"t2", "u2", "d2", "s2"⟩]
        (fun a => ⟨a.url, a.title⟩)).map Row.url ↔
      "u2" ∈ ([⟨"u1", "p1"⟩] : List Row).map Row.url ∨
      "u2" ∈ ([⟨"t2", "u2", "d2", "s2"⟩] : List Stub).map Stub.url) ∧
    (mergedStore [⟨"u1", "p1"⟩] [⟨"t2", "u2", "d2", "s2"⟩]
        (fun a => ⟨a.url, a.title⟩)).take 1 = [⟨"u1", "p1"⟩] := by
  have h := merge_unique_urls_amended [⟨"u1", "p1"⟩] [⟨"t2", "u2", "d2", "s2"⟩]
    (fun a => ⟨a.url, a.title⟩) (fun a => rfl) (by decide) (by decide)
  exact ⟨h.1, h.2.1 "u2", h.2.2⟩

/-- C2 counterexample: a mocked source yielding 50 distinct comments on
every page, with `max_total_comments = 120`, returns `total_count = 150`:
the cap check runs only after a whole page has been accumulated, so the
claimed bound `total_count ≤ 120` fails. -/
theorem comment_cap_counterexample :
    (fetch_comments_with_selenium (fun _ => some mockComments) 10 120
        "https://news.yahoo.co.jp/articles/abc").1 = 150 ∧
    ¬ (fetch_comments_with_selenium (fun _ => some mockComments) 10 120
        "https://news.yahoo.co.jp/articles/abc").1 ≤ 120 :=
  ⟨by decide, by decide⟩

/-- C2 (amended): with a mocked comment source yielding 50 new comments on
every page indefinitely and `max_total_comments = 120`,
`fetch_comments_with_selenium` stops after the page that crosses the cap:
it fetches exactly ⌈120/50⌉ = 3 pages (within the claimed ⌈120/50⌉ + 1)
and returns `total_count = 150` — at most one page (50 comments) beyond
the cap, not at most the cap itself. -/
theorem comment_cap_amended (pc : Nat → Option (List String))
    (h : ∀ p, ∃ raw, pc p = some raw ∧ (pageNewComments raw).length = 50) :
    (fetch_comments_with_selenium pc 10 120
        "https://news.yahoo.co.jp/articles/abc").1 = 150 ∧
    (fetch_comments_with_selenium pc 10 120
        "https://news.yahoo.co.jp/articles/abc").2.length = 3 := by
  obtain ⟨r1, h1, l1⟩ := h 1
  obtain ⟨r2, h2, l2⟩ := h 2
  obtain ⟨r3, h3, l3⟩ := h 3
  have ne1 : pageNewComments r1 ≠ [] := by
    intro e; rw [e] at l1; exact absurd l1 (by decide)
  have ne2 : pageNewComments r2 ≠ [] := by
    intro e; rw [e] at l2; exact absurd l2 (by decide)
  have ne3 : pageNewComments r3 ≠ [] := by
    intro e; rw [e] at l3; exact absurd l3 (by decide)
  have e0 : fetch_comments_with_selenium pc 10 120 "https://news.yahoo.co.jp/articles/abc"
      = fetchCommentsGo pc 120 10 1 [] [] := by
    unfold fetch_comments_with_selenium
    rw [if_pos (by decide)]
  rw [e0, show (10 : Nat) = 9 + 1 from rfl,
    fetchCommentsGo_cont pc 120 9 1 [] [] r1 h1 ne1
      (by simp only [List.length_nil, l1]; omega),
    show (9 : Nat) = 8 + 1 from rfl,
    fetchCommentsGo_cont pc 120 8 2 ([] ++ pageNewComments r1)
      (String.intercalate "\n---\n" (pageNewComments r1) :: []) r2 h2 ne2
      (by simp only [List.nil_append, l1, l2]; omega),
    show (8 : Nat) = 7 + 1 from rfl,
    fetchCommentsGo_stop pc 120 7 3
      (([] ++ pageNewComments r1) ++ pageNewComments r2)
      (String.intercalate "\n---\n" (pageNewComments r2) ::
        String.intercalate "\n---\n" (pageNewComments r1) :: []) r3 h3 ne3
      (by simp only [List.length_append, List.nil_append, l1, l2, l3]; omega)]
  constructor
  · simp only [List.length_append, List.nil_append, l1, l2, l3]
  · simp

/-- Witness for C2 (amended) at the concrete 50-comments-per-page mock. -/
theorem comment_cap_witness :
    (fetch_comments_with_selenium (fun _ => some mockComments) 10 120
        "https://news.yahoo.co.jp/articles/abc").1 = 150 ∧
    (fetch_comments_with_selenium (fun _ => some mockComments) 10 120
        "https://news.yahoo.co.jp/articles/abc").2.length = 3 :=
  comment_cap_amended (fun _ => some mockComments)
    (fun _ => ⟨mockComments, rfl, by decide⟩)
